import Mathlib

/-!
Verification development for the route-pooling matcher of the
smart-airport-cabpooling backend.

The program manipulates JavaScript strings (H3 route signatures, pool
members, user ids).  We embed them as `List Char` (`Str` below) so that
all string operations (`split('::')`, `substring`, `slice`, `includes`,
`startsWith`, lexicographic comparison) are the transparent list
operations that mirror the JS code-unit semantics, and concrete runs
reduce in the kernel.

The Redis pool is modelled as `PoolState`: the lex-ordered sorted-set
`h3:airport_pool` (a lexicographically sorted, duplicate-free list of
members `route_signature ++ "::" ++ entry_id`) plus the metadata
keyspace (an association list from keys to stored metadata).  Redis
commands are atomic per call; each call may also fail with a thrown
error (connection loss), which we model with an operation counter and a
per-operation outcome oracle `Env.redisOutcome` in the `M` monad below.

External collaborators (Google Routes API, the h3-js library, the
Prisma database boundary, the pub/sub bus) are oracles in `Env`; the
code of this repository that consumes them is translated statement by
statement from `src/src/routes/findRide.ts` (class `RedisPoolingService`,
final revision in the file) and from the route indexer
(`generateH3IndexesForRoute` / `calculateIssuedPrice`).
-/

/-- JS strings embedded as lists of code units. -/
abbrev Str := List Char

/-- The literal `"::"` separating a route signature from an entry id. -/
def colons : Str := [':', ':']

/-- The literal `"TRIP"` prefixing trip entry ids. -/
def strTRIP : Str := ['T', 'R', 'I', 'P']

/-- JS `s.split('::')`: split on every non-overlapping occurrence of `"::"`. -/
def splitColons : Str → List Str
  | [] => [[]]
  | ':' :: ':' :: rest => [] :: splitColons rest
  | c :: rest =>
    match splitColons rest with
    | [] => [[c]]
    | h :: t => (c :: h) :: t

/-- JS `s.includes(pat)`: substring containment. -/
def strContains (s pat : Str) : Bool :=
  (List.range (s.length + 1)).any (fun i => pat.isPrefixOf (s.drop i))

/-- JS `a < b` on strings: lexicographic comparison by code unit. -/
def lexLt : Str → Str → Bool
  | _, [] => false
  | [], _ :: _ => true
  | a :: as, b :: bs => if a < b then true else if b < a then false else lexLt as bs

/-- JS `a <= b` on strings. -/
def lexLe (a b : Str) : Bool := !(lexLt b a)

/-- Entry status as stored in pool metadata. -/
inductive EntryStatus where
  | WAITING
  | ACTIVE
deriving DecidableEq

/-- `PassengerMetaData` (findRide.ts).  Prices are exact rationals
(the JS code computes with IEEE doubles; the numeric claims are about
the arithmetic expressions, which we take at face value over `ℚ`). -/
structure PassengerMetaData where
  no_of_passengers : Nat
  destination_h3 : Str
  luggage : Nat
  status : EntryStatus
  issued_price : ℚ
deriving DecidableEq

/-- `TripMetaData` (findRide.ts): `users` is an array of single-key
records mapping a member's id to its original passenger metadata;
`trip` is the optional durable-trip snapshot attached after
persistence (modelled by its database trip id). -/
structure TripMetaData where
  trip_id : Str
  users : List (Str × PassengerMetaData)
  no_of_passengers : Nat
  luggage : Nat
  status : EntryStatus
  issued_price : ℚ
  trip : Option Str := none
deriving DecidableEq

/-- A value stored in the metadata keyspace: either a passenger entry
or a trip entry (the source distinguishes them by the presence of a
`users` field). -/
inductive StoredMeta where
  | passenger (p : PassengerMetaData)
  | trip (t : TripMetaData)
deriving DecidableEq

/-- Duck-typed `data.luggage` read used by `checkMatchConstraints`. -/
def StoredMeta.luggage : StoredMeta → Nat
  | .passenger p => p.luggage
  | .trip t => t.luggage

/-- Duck-typed `data.no_of_passengers` read. -/
def StoredMeta.no_of_passengers : StoredMeta → Nat
  | .passenger p => p.no_of_passengers
  | .trip t => t.no_of_passengers

/-- Duck-typed `data.issued_price` read. -/
def StoredMeta.issued_price : StoredMeta → ℚ
  | .passenger p => p.issued_price
  | .trip t => t.issued_price

/-- The Redis pool: the lex sorted set `h3:airport_pool` plus the
metadata keyspace. -/
structure PoolState where
  lexset : List Str
  meta : List (Str × StoredMeta)
deriving DecidableEq

/-- Insert a member into the lex-ordered set (Redis `ZADD` with score 0:
members are unique and kept in lexicographic order). -/
def insertLex (v : Str) : List Str → List Str
  | [] => [v]
  | x :: xs => if lexLe v x then v :: x :: xs else x :: insertLex v xs

/-- Redis `ZADD h3:airport_pool 0 v`. -/
def zAddPool (p : PoolState) (v : Str) : PoolState :=
  if v ∈ p.lexset then p else { p with lexset := insertLex v p.lexset }

/-- Redis `ZREM` of a batch of members. -/
def zRemPool (p : PoolState) (ms : List Str) : PoolState :=
  { p with lexset := p.lexset.filter (fun m => ¬ m ∈ ms) }

/-- Redis `SET key value` on the metadata keyspace. -/
def setMeta (p : PoolState) (k : Str) (v : StoredMeta) : PoolState :=
  { p with meta := (k, v) :: p.meta.filter (fun kv => ¬ kv.1 = k) }

/-- Redis `DEL` of a batch of metadata keys. -/
def delMeta (p : PoolState) (ks : List Str) : PoolState :=
  { p with meta := p.meta.filter (fun kv => ¬ kv.1 ∈ ks) }

/-- Redis `GET key` on the metadata keyspace. -/
def lookupMeta (p : PoolState) (k : Str) : Option StoredMeta :=
  (p.meta.find? (fun kv => kv.1 = k)).map (·.2)

/-- One route entry of a Google `computeRoutes` response
(field mask `routes.distanceMeters`). -/
structure RouteEntry where
  distanceMeters : Nat
deriving DecidableEq

/-- A Google `computeRoutes` response body for the detour calculator. -/
structure DistanceResponse where
  routes : List RouteEntry
deriving DecidableEq

/-- One step of a leg of a Google `computeRoutes` response with the
step-level field mask used by the route indexer. -/
structure GStep where
  startLocation : Option (ℚ × ℚ)
  endLocation : Option (ℚ × ℚ)
deriving DecidableEq

/-- One leg of a Google `computeRoutes` response. -/
structure GLeg where
  steps : List GStep
deriving DecidableEq

/-- One route of a Google `computeRoutes` response for the indexer
(`distanceMeters || 0` reads an optional field). -/
structure GRoute where
  legs : List GLeg
  distanceMeters : Option Nat
deriving DecidableEq

/-- A Google `computeRoutes` response body for the route indexer. -/
structure LegsResponse where
  routes : List GRoute
deriving DecidableEq

/-- The external world: outcomes of every call that leaves the process.
`redisOutcome n` tells whether the `n`-th Redis command of a run
succeeds (connection errors are thrown by the client library);
`routesApi` / `legsApi` are the two Google Routes endpoints (an
`Except.error` is a thrown fetch error or a non-ok HTTP status);
`cellToLatLng` / `latLngToCell` / `gridPathCells` are the h3-js library;
`persistOutcome` / `fetchFullTrip` are the Prisma database boundary
(`persistMatchToDatabase` catches every database error internally and
returns the new trip id or null, so its interface is total);
`randomUUID` is the uuid minted for the next trip key. -/
structure Env where
  randomUUID : Str
  redisOutcome : Nat → Bool
  cellToLatLng : Str → ℚ × ℚ
  latLngToCell : ℚ × ℚ → Str
  gridPathCells : Str → Str → Except String (List Str)
  routesApi : ℚ × ℚ → ℚ × ℚ → Except String DistanceResponse
  legsApi : ℚ × ℚ → ℚ × ℚ → Except String LegsResponse
  persistOutcome : Str → Option Str
  fetchFullTrip : Str → Option Str

/-- All Redis commands of the run succeed. -/
def allOk (env : Env) : Prop := ∀ n, env.redisOutcome n = true

/-- Mutable state of a run: the pool plus the count of Redis commands
issued so far (used to index `Env.redisOutcome`). -/
structure MState where
  pool : PoolState
  ops : Nat
deriving DecidableEq

deriving instance DecidableEq for Except

/-- Computations over the pool that may throw (JS exceptions).  State
changes made before a throw survive it, as they do in the program. -/
def M (α : Type) : Type := MState → Except String α × MState

instance : Monad M where
  pure a := fun s => (.ok a, s)
  bind x f := fun s =>
    match x s with
    | (.ok a, s') => f a s'
    | (.error e, s') => (.error e, s')

/-- JS try-catch: run the body, on a thrown error run the handler. -/
def tryCatchJs {α : Type} (x : M α) (h : String → M α) : M α := fun s =>
  match x s with
  | (.ok a, s') => (.ok a, s')
  | (.error e, s') => h e s'

/-- Issue one Redis command: consumes an outcome tick; on failure the
client throws and the pool is untouched. -/
def redisStep {α : Type} (env : Env) (f : PoolState → α × PoolState) : M α := fun s =>
  if env.redisOutcome s.ops then
    (.ok (f s.pool).1, ⟨(f s.pool).2, s.ops + 1⟩)
  else
    (.error "redis op failed", ⟨s.pool, s.ops + 1⟩)

/-- `zRange(POOL_KEY, '[min', '[max', {BY:'LEX', LIMIT:{offset:0,count:5}})`. -/
def zRangeLexBetween (env : Env) (lo hi : Str) : M (List Str) :=
  redisStep env (fun p => ((p.lexset.filter (fun m => lexLe lo m && lexLe m hi)).take 5, p))

/-- `zRange(POOL_KEY, '[max', '-', {BY:'LEX', REV:true, LIMIT:{offset:0,count:5}})`. -/
def zRangeRevFrom (env : Env) (hi : Str) : M (List Str) :=
  redisStep env (fun p => (((p.lexset.filter (fun m => lexLe m hi)).reverse).take 5, p))

/-- `zRange(POOL_KEY, '[min', '+', {BY:'LEX', LIMIT:{offset:0,count:5}})`. -/
def zRangeFrom (env : Env) (lo : Str) : M (List Str) :=
  redisStep env (fun p => ((p.lexset.filter (fun m => lexLe lo m)).take 5, p))

/-- `zRange(POOL_KEY, 0, -1)`: all members in order. -/
def zRangeAll (env : Env) : M (List Str) :=
  redisStep env (fun p => (p.lexset, p))

/-- `zAdd(POOL_KEY, [{score:0, value:v}])`. -/
def zAddM (env : Env) (v : Str) : M Unit :=
  redisStep env (fun p => ((), zAddPool p v))

/-- `zRem(POOL_KEY, ms)`. -/
def zRemM (env : Env) (ms : List Str) : M Unit :=
  redisStep env (fun p => ((), zRemPool p ms))

/-- `client.get(k)` on the metadata keyspace. -/
def getMetaM (env : Env) (k : Str) : M (Option StoredMeta) :=
  redisStep env (fun p => (lookupMeta p k, p))

/-- `client.set(k, JSON.stringify(v))`. -/
def setMetaM (env : Env) (k : Str) (v : StoredMeta) : M Unit :=
  redisStep env (fun p => ((), setMeta p k v))

/-- `client.del(ks)`. -/
def delMetaM (env : Env) (ks : List Str) : M Unit :=
  redisStep env (fun p => ((), delMeta p ks))

/-- Capacity cap `LUGGAGE_CAPACITY` of `RedisPoolingService`. -/
def LUGGAGE_CAPACITY : Nat := 4

/-- Capacity cap `MAX_PASSENGERS` of `RedisPoolingService`. -/
def MAX_PASSENGERS : Nat := 3

/-- The `match_type` discriminator of a `RouteMatch`. -/
inductive MatchType where
  | DIRECT
  | BEST_DETOUR
  | NONE
  | NEIGHBOUR
deriving DecidableEq

/-- `RouteMatch` (findRide.ts): the matcher's result record; absent
optional fields are `none`. -/
structure RouteMatch where
  match_type : MatchType
  user_id : Option Str := none
  detour_distance_meters : Option Nat := none
  split_point_h3 : Option Str := none
  trip_id : Option Str := none
  trip : Option Str := none
deriving DecidableEq

/-- `getRouteString`: concatenate the H3 indexes of a route. -/
def getRouteString (routeIndexes : List Str) : Str := routeIndexes.flatten

/-- `fetchRouteDistance`: ask the Google Routes API for the driving
distance between two points; a thrown fetch error, a non-ok response or
an empty `routes` array is caught and turned into the sentinel
`9999999` metres "so this candidate is ignored". -/
def fetchRouteDistance (env : Env) (origin dest : ℚ × ℚ) : Nat :=
  match env.routesApi origin dest with
  | .error _ => 9999999
  | .ok data =>
    match data.routes with
    | [] => 9999999
    | r :: _ => r.distanceMeters

/-- The longest-common-prefix loop of the Step-2 scan: walk both route
strings 15 characters at a time and record the end position of the last
agreeing block (`splitIndex`).  The loop advances `i` by 15 while
`i < min(len, len)`, so `min(len, len) + 1` steps of fuel always
suffice; fuel keeps the recursion structural. -/
def splitIndexGo (my cand : Str) : Nat → Nat → Nat → Nat
  | 0, _, acc => acc
  | fuel + 1, i, acc =>
    if i < Nat.min my.length cand.length then
      if (my.drop i).take 15 = (cand.drop i).take 15 then
        splitIndexGo my cand fuel (i + 15) (i + 15)
      else acc
    else acc

/-- The `splitIndex` computed for a candidate (loop started at 0). -/
def candidateSplitIndex (my cand : Str) : Nat :=
  splitIndexGo my cand (Nat.min my.length cand.length + 1) 0 0

/-- `candidate.split('::')[0]`: the candidate's route signature. -/
def candRouteOf (c : Str) : Str := (splitColons c).headD []

/-- `candidate.split('::')[1]`: the candidate's entry id. -/
def candIdOf (c : Str) : Str := (splitColons c)[1]?.getD []

/-- `myRouteString.substring(splitIndex - 15, splitIndex)`: the H3 cell
at the split point. -/
def splitPointOf (myRoute candRoute : Str) : Str :=
  let splitIndex := candidateSplitIndex myRoute candRoute
  (myRoute.drop (splitIndex - 15)).take (splitIndex - (splitIndex - 15))

/-- `candidateRouteString.slice(-15)`: the candidate's destination cell. -/
def candDestOf (candRoute : Str) : Str := candRoute.drop (candRoute.length - 15)

/-- The detour distance computed for a candidate in the Step-2 scan:
driving distance from the split cell's centre to the candidate's
destination cell's centre. -/
def candDetour (env : Env) (myRoute candRoute : Str) : Nat :=
  fetchRouteDistance env (env.cellToLatLng (splitPointOf myRoute candRoute))
    (env.cellToLatLng (candDestOf candRoute))

/-- `detourMeters < minDetourMeters` where the running minimum starts
at `Infinity` (modelled by `none`). -/
def ltMin (d : Nat) : Option Nat → Bool
  | none => true
  | some m => d < m

/-- The member value written back by `storeTripRoute`.  This mirrors
the source exactly: the conditional assignment for the case where the
requesting user's route is at least as long is immediately overwritten
by the unconditional assignment that follows it, so the matched user's
route always wins. -/
def tripRouteValue (requestingUserRouteSignature matchedUserSignature tripKey : Str) : Str :=
  let requestingUserRoute := (splitColons requestingUserRouteSignature).headD []
  let matchedUserRoute := (splitColons matchedUserSignature).headD []
  let tripRoute : Str := []
  let tripRoute :=
    if requestingUserRoute.length ≥ matchedUserRoute.length then
      requestingUserRoute ++ colons ++ tripKey
    else tripRoute
  let tripRoute := matchedUserRoute ++ colons ++ tripKey
  tripRoute

/-- `storeTripRoute`: `zAdd` the combined trip membership record;
errors are caught and only logged. -/
def storeTripRouteM (env : Env) (requestingUserRouteSignature matchedUserSignature tripKey : Str) : M Unit :=
  tryCatchJs (zAddM env (tripRouteValue requestingUserRouteSignature matchedUserSignature tripKey))
    (fun _ => pure ())

/-- The `users` array of the combined trip metadata: the net effect of
lines 1101 and 1108-1110 of findRide.ts (if the matched entry was
already a trip, its member array is extended; otherwise both
passengers' records are listed). -/
def commitUsers (matchedUserId : Str) (data : StoredMeta) (requestingUserId : Str)
    (req : PassengerMetaData) : List (Str × PassengerMetaData) :=
  match data with
  | .passenger p => [(matchedUserId, p), (requestingUserId, req)]
  | .trip t => t.users ++ [(requestingUserId, req)]

/-- The combined trip metadata built by `checkMatchConstraints` (the
copy stored in Redis, before the durable-trip snapshot is attached). -/
def builtTripMeta (tripKey matchedUserId : Str) (data : StoredMeta) (requestingUserId : Str)
    (req : PassengerMetaData) : TripMetaData :=
  { trip_id := tripKey,
    users := commitUsers matchedUserId data requestingUserId req,
    luggage := data.luggage + req.luggage,
    no_of_passengers := data.no_of_passengers + req.no_of_passengers,
    status := if (data.luggage + req.luggage == LUGGAGE_CAPACITY)
                 || (data.no_of_passengers + req.no_of_passengers == MAX_PASSENGERS)
              then .ACTIVE else .WAITING,
    issued_price := data.issued_price * (3 / 10) }

/-- `checkMatchConstraints`: read the peer's metadata; reject when
absent or when a summed capacity exceeds its cap; otherwise commit the
pair: remove both membership records, delete both metadata keys, mint
`TRIP<uuid>`, write the extended trip membership record when the trip
is not sealed, store the combined trip metadata, persist to the
database (a boundary oracle whose own failures are absorbed), attach
the durable snapshot and return the trip metadata.  The pub/sub
notification is fire-and-forget and does not touch the pool.  All
thrown errors are caught and turned into `none` (`false`). -/
def checkMatchConstraintsM (env : Env) (matchedUserId : Str)
    (requestingUserMetaData : PassengerMetaData) (requestingUserId : Str)
    (requestingUserRouteSignature matchedUserSignature : Str) : M (Option TripMetaData) :=
  tryCatchJs
    (do
      let matchedUserData ← getMetaM env matchedUserId
      match matchedUserData with
      | none => pure none
      | some data =>
        if data.luggage + requestingUserMetaData.luggage > LUGGAGE_CAPACITY
            ∨ data.no_of_passengers + requestingUserMetaData.no_of_passengers > MAX_PASSENGERS then
          pure none
        else do
          let status := (data.luggage + requestingUserMetaData.luggage == LUGGAGE_CAPACITY)
            || (data.no_of_passengers + requestingUserMetaData.no_of_passengers == MAX_PASSENGERS)
          zRemM env [requestingUserRouteSignature, matchedUserSignature]
          delMetaM env [matchedUserId, requestingUserId]
          let tripKey := strTRIP ++ env.randomUUID
          if !status then
            storeTripRouteM env requestingUserRouteSignature matchedUserSignature tripKey
          let tripMetaStored :=
            builtTripMeta tripKey matchedUserId data requestingUserId requestingUserMetaData
          setMetaM env tripKey (.trip tripMetaStored)
          let dbTripId := env.persistOutcome tripKey
          let fullTrip := match dbTripId with
            | some i => env.fetchFullTrip i
            | none => none
          pure (some { tripMetaStored with trip := fullTrip }))
    (fun _ => pure none)

/-- The Step-1b loop of `matchUserWithAvaialbleTrip`: first neighbour
whose route signature is a prefix of the caller's and whose commit
succeeds wins as a `DIRECT` match. -/
def step1bLoop (env : Env) (myRouteString myMemberValue user_id : Str)
    (userMetaData : PassengerMetaData) : List Str → M (Option RouteMatch)
  | [] => pure none
  | neighbor :: rest => do
    let neighborRoute := candRouteOf neighbor
    let neighborId := candIdOf neighbor
    if neighborRoute.isPrefixOf myRouteString then
      let isTripEligible ←
        checkMatchConstraintsM env neighborId userMetaData user_id myMemberValue neighbor
      match isTripEligible with
      | some t =>
        pure (some { match_type := .DIRECT, user_id := some neighborId,
                     trip_id := some t.trip_id, trip := t.trip })
      | none => step1bLoop env myRouteString myMemberValue user_id userMetaData rest
    else step1bLoop env myRouteString myMemberValue user_id userMetaData rest

/-- The Step-2 best-detour scan of `matchUserWithAvaialbleTrip`:
for each neighbour compute the split point (skip which diverge
immediately), the detour distance, and if it is below 3000 m and below
the running minimum, update the minimum and attempt the commit; the
first successful commit is returned immediately as `BEST_DETOUR`. -/
def step2Scan (env : Env) (myRouteString myMemberValue user_id : Str)
    (userMetaData : PassengerMetaData) : List Str → RouteMatch → Option Nat → M RouteMatch
  | [], bestMatch, _ => pure bestMatch
  | candidate :: rest, bestMatch, minDetourMeters => do
    let candidateRouteString := candRouteOf candidate
    let candidateUserId := candIdOf candidate
    let splitIndex := candidateSplitIndex myRouteString candidateRouteString
    if splitIndex = 0 then
      step2Scan env myRouteString myMemberValue user_id userMetaData rest bestMatch minDetourMeters
    else
      let splitPointH3 := splitPointOf myRouteString candidateRouteString
      let detourMeters := candDetour env myRouteString candidateRouteString
      if decide (detourMeters < 3000) && ltMin detourMeters minDetourMeters then do
        let isTripEligible ←
          checkMatchConstraintsM env candidateUserId userMetaData user_id myMemberValue candidate
        match isTripEligible with
        | some t =>
          pure { match_type := .BEST_DETOUR, user_id := some candidateUserId,
                 detour_distance_meters := some detourMeters,
                 split_point_h3 := some splitPointH3,
                 trip_id := some t.trip_id, trip := t.trip }
        | none =>
          step2Scan env myRouteString myMemberValue user_id userMetaData rest bestMatch
            (some detourMeters)
      else
        step2Scan env myRouteString myMemberValue user_id userMetaData rest bestMatch
          minDetourMeters

/-- The body of `matchUserWithAvaialbleTrip` (everything inside its
`try`): Step-1a superset scan, neighbour fetch, Step-1b subset loop,
Step-2 best-detour scan. -/
def matchBody (env : Env) (user_id : Str) (routeIndexes : List Str)
    (userMetaData : PassengerMetaData) : M RouteMatch := do
  let myRouteString := getRouteString routeIndexes
  let myMemberValue := myRouteString ++ colons ++ user_id
  let supersetCandidates ← zRangeLexBetween env myRouteString (myRouteString ++ [Char.ofNat 255])
  match supersetCandidates.find? (fun c => !(strContains c user_id)) with
  | some perfectLongMatch =>
    let matchedUser := candIdOf perfectLongMatch
    let isTripEligible ←
      checkMatchConstraintsM env matchedUser userMetaData user_id myMemberValue perfectLongMatch
    match isTripEligible with
    | some t =>
      return { match_type := .DIRECT, user_id := some matchedUser,
               trip_id := some t.trip_id, trip := t.trip }
    | none => pure ()
  | none => pure ()
  let predecessors ← zRangeRevFrom env myRouteString
  let successors ← zRangeFrom env myRouteString
  let allNeighbors := (predecessors ++ successors).filter
    (fun c => !(strContains c user_id) && !(strContains c strTRIP))
  match ← step1bLoop env myRouteString myMemberValue user_id userMetaData allNeighbors with
  | some r => return r
  | none => pure ()
  step2Scan env myRouteString myMemberValue user_id userMetaData allNeighbors
    { match_type := .NONE } none

/-- `matchUserWithAvaialbleTrip` [sic]: the whole body runs inside a
`try` whose `catch` logs and returns `{ match_type: 'NONE' }`, so the
function never propagates an exception to its caller. -/
def matchUserWithAvaialbleTrip (env : Env) (user_id : Str) (routeIndexes : List Str)
    (userMetaData : PassengerMetaData) (s : MState) : RouteMatch × MState :=
  match matchBody env user_id routeIndexes userMetaData s with
  | (.ok r, s') => (r, s')
  | (.error _, s') => ({ match_type := .NONE }, s')

/-- `storePassengerMetaData`: `set` the metadata key; errors are caught
and reported as `false`. -/
def storePassengerMetaDataM (env : Env) (user_id : Str) (metadata : PassengerMetaData) : M Bool :=
  tryCatchJs (do setMetaM env user_id (.passenger metadata); pure true) (fun _ => pure false)

/-- `storeRouteH3Index`: `zAdd` the membership record
`routeString ++ "::" ++ user_id`; errors are caught and reported as
`false`. -/
def storeRouteH3IndexM (env : Env) (user_id : Str) (routeIndexes : List Str) : M Bool :=
  tryCatchJs (do zAddM env (getRouteString routeIndexes ++ colons ++ user_id); pure true)
    (fun _ => pure false)

/-- `removeUserFromPool`: scan the whole sorted set, keep the members
whose `::` suffix equals the user id, `zRem` them when there are any,
and delete the metadata key; errors are caught and only logged. -/
def removeUserFromPoolM (env : Env) (userId : Str) : M Unit :=
  tryCatchJs
    (do
      let allMembers ← zRangeAll env
      let userMembers := allMembers.filter (fun member => (splitColons member)[1]? = some userId)
      if userMembers.length > 0 then
        zRemM env userMembers
      delMetaM env [userId])
    (fun _ => pure ())

/-- `AIRPORT_LOCATION`: the fixed origin of every route (Delhi airport). -/
def airportLocation : ℚ × ℚ := (28.5562, 77.1)

/-- `COST_PER_KM`: Rs. 10 per km. -/
def COST_PER_KM : ℤ := 10

/-- `calculateIssuedPrice` (route indexer): price for a total driving
distance in km.  A falsy or non-positive distance yields the flat
`COST_PER_KM`; otherwise the distance times the rate, rounded up. -/
def calculateIssuedPrice (totalDistanceKm : ℚ) : ℤ :=
  if totalDistanceKm ≤ 0 then COST_PER_KM
  else ⌈totalDistanceKm * (COST_PER_KM : ℚ)⌉

/-- The route data extracted from a step-level Google Routes response. -/
structure RouteData where
  routePoints : List (ℚ × ℚ)
  distanceMeters : Nat
deriving DecidableEq

/-- `fetchRouteFromGoogle` (route indexer): call the directions
endpoint; rethrow fetch/HTTP errors; throw `"No route found"` when the
response carries no route; otherwise flatten every step's start and end
locations into the ordered waypoint list and read the total distance
(`distanceMeters || 0`). -/
def fetchRouteFromGoogle (env : Env) (origin dest : ℚ × ℚ) : Except String RouteData :=
  match env.legsApi origin dest with
  | .error e => .error e
  | .ok data =>
    match data.routes with
    | [] => .error "No route found"
    | r0 :: _ =>
      .ok { routePoints :=
              r0.legs.flatMap (fun leg =>
                leg.steps.flatMap (fun step =>
                  step.startLocation.toList ++ step.endLocation.toList)),
            distanceMeters := r0.distanceMeters.getD 0 }

/-- `[...new Set(xs)]`: de-duplicate keeping first occurrences in order. -/
def dedupFirst (xs : List Str) : List Str :=
  xs.foldl (fun acc x => if x ∈ acc then acc else acc ++ [x]) []

/-- Insertion into a JS `Set` (insertion order, no repeats). -/
def addUnique (acc : List Str) (x : Str) : List Str :=
  if x ∈ acc then acc else acc ++ [x]

/-- `fillRouteGaps` (route indexer): seed the set with the first cell,
then for each adjacent pair splice in the grid path between them; if
the library call throws, fall back to appending the pair's end cell. -/
def fillRouteGaps (env : Env) (h3Indexes : List Str) : List Str :=
  if h3Indexes.length < 2 then h3Indexes
  else
    (h3Indexes.zip h3Indexes.tail).foldl
      (fun acc se =>
        match env.gridPathCells se.1 se.2 with
        | .ok pathCells => pathCells.foldl addUnique acc
        | .error _ => addUnique acc se.2)
      (addUnique [] (h3Indexes.headD []))

/-- The result record of `generateH3IndexesForRoute`. -/
structure IndexerResult where
  destinationH3 : Str
  pathH3Indexes : List Str
  totalHexagons : Nat
  totalDistanceKm : ℚ
deriving DecidableEq

/-- `generateH3IndexesForRoute` (route indexer): destination cell,
route fetched from Google (errors rethrown), waypoints mapped to cells,
consecutive-duplicate removal via a `Set`, gap filling, destination
cell appended if missing, distance converted to km. -/
def generateH3IndexesForRoute (env : Env) (dest : ℚ × ℚ) : Except String IndexerResult :=
  let destinationH3 := env.latLngToCell dest
  match fetchRouteFromGoogle env airportLocation dest with
  | .error e => .error e
  | .ok routeData =>
    let routeH3Indexes := routeData.routePoints.map env.latLngToCell
    let uniqueH3Indexes := dedupFirst routeH3Indexes
    let uniqueH3Indexes := fillRouteGaps env uniqueH3Indexes
    let uniqueH3Indexes :=
      if destinationH3 ∈ uniqueH3Indexes then uniqueH3Indexes
      else uniqueH3Indexes ++ [destinationH3]
    .ok { destinationH3 := destinationH3,
          pathH3Indexes := uniqueH3Indexes,
          totalHexagons := uniqueH3Indexes.length,
          totalDistanceKm := (routeData.distanceMeters : ℚ) / 1000 }

/-- A `REGISTER_RIDE` WebSocket payload. -/
structure RegisterRidePayload where
  no_of_passengers : Nat
  luggage : Nat
  latitude : ℚ
  longitude : ℚ
deriving DecidableEq

/-- The messages the `REGISTER_RIDE` handler can send back on the
socket. -/
inductive WsResponse where
  | errorMsg (message : String)
  | registered
  | rideMatched (matchResult : RouteMatch)
deriving DecidableEq

/-- The validation failure message of the handler. -/
def requiresFieldsMsg : String :=
  "REGISTER_RIDE requires: no_of_passengers, luggage, latitude, longitude"

/-- The catch-all failure message of the handler. -/
def registerFailedMsg : String := "Failed to register ride. Please try again."

/-- The pool state after the handler's two self-registration writes
(`storePassengerMetaData` then `storeRouteH3Index`; both catch their
own errors and their boolean results are ignored by the handler). -/
def registerWrites (env : Env) (userId : Str) (userMetaData : PassengerMetaData)
    (pathH3Indexes : List Str) (s : MState) : MState :=
  let r1 := storePassengerMetaDataM env userId userMetaData s
  let r2 := storeRouteH3IndexM env userId pathH3Indexes r1.2
  r2.2

/-- The `REGISTER_RIDE` branch of the WebSocket `message` handler
(findRide.ts lines 116-179): falsy-field validation, route indexing
(failures caught and answered with an error message, leaving the pool
untouched), self-registration with the hard-coded issued price 500,
then immediate matching; answer `RIDE_MATCHED` or `REGISTERED`. -/
def handleRegisterRide (env : Env) (userId : Str) (payload : RegisterRidePayload)
    (s : MState) : WsResponse × MState :=
  if payload.no_of_passengers = 0 ∨ payload.latitude = 0 ∨ payload.longitude = 0 then
    (.errorMsg requiresFieldsMsg, s)
  else
    match generateH3IndexesForRoute env (payload.latitude, payload.longitude) with
    | .error _ => (.errorMsg registerFailedMsg, s)
    | .ok result =>
      let userMetaData : PassengerMetaData :=
        { no_of_passengers := payload.no_of_passengers,
          destination_h3 := result.destinationH3,
          luggage := payload.luggage,
          status := .WAITING,
          issued_price := 500 }
      let s1 := registerWrites env userId userMetaData result.pathH3Indexes s
      let (matchResult, s2) :=
        matchUserWithAvaialbleTrip env userId result.pathH3Indexes userMetaData s1
      if matchResult.match_type ≠ .NONE then (.rideMatched matchResult, s2)
      else (.registered, s2)

/-- The trip metadata returned to the requesting user by a successful
commit: the stored copy with the durable-trip snapshot attached. -/
def commitResultMeta (env : Env) (matchedUserId : Str) (data : StoredMeta)
    (requestingUserId : Str) (req : PassengerMetaData) : TripMetaData :=
  let tripKey := strTRIP ++ env.randomUUID
  { builtTripMeta tripKey matchedUserId data requestingUserId req with
    trip := match env.persistOutcome tripKey with
      | some i => env.fetchFullTrip i
      | none => none }

/-- The net effect of `removeUserFromPool` on the pool when the store
operations succeed: drop every member whose `::` suffix is the user id
and delete the metadata key. -/
def removeUserPure (userId : Str) (p : PoolState) : PoolState :=
  { lexset := p.lexset.filter (fun member => ¬ (splitColons member)[1]? = some userId),
    meta := p.meta.filter (fun kv => ¬ kv.1 ∈ [userId]) }

/-- Concrete fixture: a 15-character H3 cell. -/
def cellA : Str := List.replicate 15 'a'

/-- Concrete fixture: a 15-character H3 cell. -/
def cellB : Str := List.replicate 15 'b'

/-- Concrete fixture: a 15-character H3 cell. -/
def cellC : Str := List.replicate 15 'c'

/-- Concrete fixture: a 15-character H3 cell. -/
def cellD : Str := List.replicate 15 'd'

/-- Concrete fixture: a user id. -/
def uid1 : Str := ['u', '1']

/-- Concrete fixture: a user id. -/
def uid2 : Str := ['u', '2']

/-- Concrete fixture: the requesting user's id. -/
def uidR : Str := ['u', '9']

/-- Concrete fixture: the requesting user's metadata. -/
def reqMeta0 : PassengerMetaData :=
  { no_of_passengers := 1, destination_h3 := cellB, luggage := 1,
    status := .WAITING, issued_price := 500 }

/-- Concrete fixture: pool metadata of waiting passenger `u1`. -/
def meta1 : PassengerMetaData :=
  { no_of_passengers := 1, destination_h3 := cellC, luggage := 1,
    status := .WAITING, issued_price := 100 }

/-- Concrete fixture: pool metadata of waiting passenger `u2`. -/
def meta2 : PassengerMetaData :=
  { no_of_passengers := 1, destination_h3 := cellD, luggage := 1,
    status := .WAITING, issued_price := 200 }

/-- Concrete fixture: an external world where every Redis command
succeeds, the split cell of the fixtures maps to the origin, and the
Routes API quotes 2000 m to `cellC` and 1000 m to `cellD`. -/
def env0 : Env :=
  { randomUUID := ['x'],
    redisOutcome := fun _ => true,
    cellToLatLng := fun c => if c = cellC then (1, 0) else if c = cellD then (2, 0) else (0, 0),
    latLngToCell := fun _ => cellA,
    gridPathCells := fun _ _ => .ok [],
    routesApi := fun _ d =>
      if d = (1, 0) then .ok ⟨[⟨2000⟩]⟩ else if d = (2, 0) then .ok ⟨[⟨1000⟩]⟩ else .error "err",
    legsApi := fun _ _ => .error "no",
    persistOutcome := fun _ => none,
    fetchFullTrip := fun _ => none }

/-- Concrete fixture: the requesting user's route signature
(`cellA` then `cellB`). -/
def myR : Str := cellA ++ cellB

/-- Concrete fixture: the requesting user's pool member value. -/
def myM : Str := myR ++ colons ++ uidR

/-- Concrete fixture: neighbour member of `u1` (routes `cellA cellC`). -/
def cand1 : Str := (cellA ++ cellC) ++ colons ++ uid1

/-- Concrete fixture: neighbour member of `u2` (routes `cellA cellD`). -/
def cand2 : Str := (cellA ++ cellD) ++ colons ++ uid2

/-- Concrete fixture: pool holding both neighbours and the requester. -/
def s0 : MState :=
  { pool := { lexset := [cand1, cand2, myM],
              meta := [(uid1, .passenger meta1), (uid2, .passenger meta2),
                       (uidR, .passenger reqMeta0)] },
    ops := 0 }

/-- Concrete fixture: an external world whose Redis connection is down
(every command throws). -/
def envFail : Env := { env0 with redisOutcome := fun _ => false }

/-- Concrete fixture: an external world whose step-level Routes API
answers with a single route of no steps and 5000 m. -/
def envIdx : Env :=
  { env0 with legsApi := fun _ _ => .ok ⟨[⟨[], some 5000⟩]⟩ }

/-- Concrete fixture: a `REGISTER_RIDE` payload whose own passenger
count (5) already exceeds `MAX_PASSENGERS`. -/
def payloadBig : RegisterRidePayload :=
  { no_of_passengers := 5, luggage := 1, latitude := 1, longitude := 1 }

/-- Concrete fixture: the empty pool. -/
def sE : MState := { pool := { lexset := [], meta := [] }, ops := 0 }

/-- Concrete fixture: a well-formed small `REGISTER_RIDE` payload. -/
def payloadSmall : RegisterRidePayload :=
  { no_of_passengers := 1, luggage := 1, latitude := 1, longitude := 1 }

/-- Concrete fixture: an external world whose distance endpoint answers
with an empty `routes` array ("No route found"). -/
def envNoRoute : Env := { env0 with routesApi := fun _ _ => .ok ⟨[]⟩ }

/-- The passenger metadata the handler builds for a registration (the
issued price is the hard-coded 500 of the source). -/
def mkRegMeta (p : RegisterRidePayload) (ires : IndexerResult) : PassengerMetaData :=
  { no_of_passengers := p.no_of_passengers, destination_h3 := ires.destinationH3,
    luggage := p.luggage, status := .WAITING, issued_price := 500 }

lemma run_bind {α β : Type} (x : M α) (f : α → M β) (s : MState) :
    (x >>= f) s =
      match x s with
      | (.ok a, s') => f a s'
      | (.error e, s') => (.error e, s') := rfl

lemma run_pure {α : Type} (a : α) (s : MState) : (pure a : M α) s = (.ok a, s) := rfl

lemma run_tryCatchJs {α : Type} (x : M α) (h : String → M α) (s : MState) :
    tryCatchJs x h s =
      match x s with
      | (.ok a, s') => (.ok a, s')
      | (.error e, s') => h e s' := rfl

lemma redisStep_run {α : Type} (env : Env) (f : PoolState → α × PoolState) (s : MState)
    (hok : allOk env) :
    redisStep env f s = (.ok (f s.pool).1, ⟨(f s.pool).2, s.ops + 1⟩) := by
  simp [redisStep, hok s.ops]

lemma getMetaM_run (env : Env) (k : Str) (s : MState) (hok : allOk env) :
    getMetaM env k s = (.ok (lookupMeta s.pool k), ⟨s.pool, s.ops + 1⟩) := by
  simp [getMetaM, redisStep_run, hok]

lemma zRemM_run (env : Env) (ms : List Str) (s : MState) (hok : allOk env) :
    zRemM env ms s = (.ok (), ⟨zRemPool s.pool ms, s.ops + 1⟩) := by
  simp [zRemM, redisStep_run, hok]

lemma delMetaM_run (env : Env) (ks : List Str) (s : MState) (hok : allOk env) :
    delMetaM env ks s = (.ok (), ⟨delMeta s.pool ks, s.ops + 1⟩) := by
  simp [delMetaM, redisStep_run, hok]

lemma zAddM_run (env : Env) (v : Str) (s : MState) (hok : allOk env) :
    zAddM env v s = (.ok (), ⟨zAddPool s.pool v, s.ops + 1⟩) := by
  simp [zAddM, redisStep_run, hok]

lemma setMetaM_run (env : Env) (k : Str) (v : StoredMeta) (s : MState) (hok : allOk env) :
    setMetaM env k v s = (.ok (), ⟨setMeta s.pool k v, s.ops + 1⟩) := by
  simp [setMetaM, redisStep_run, hok]

lemma zRangeAll_run (env : Env) (s : MState) (hok : allOk env) :
    zRangeAll env s = (.ok s.pool.lexset, ⟨s.pool, s.ops + 1⟩) := by
  simp [zRangeAll, redisStep_run, hok]

lemma checkMatch_success (env : Env) (mid : Str) (req : PassengerMetaData) (rid : Str)
    (reqSig mSig : Str) (s : MState) (data : StoredMeta) (hok : allOk env)
    (hfound : lookupMeta s.pool mid = some data)
    (hcap : ¬(data.luggage + req.luggage > LUGGAGE_CAPACITY
      ∨ data.no_of_passengers + req.no_of_passengers > MAX_PASSENGERS)) :
    ∃ s', checkMatchConstraintsM env mid req rid reqSig mSig s =
        (.ok (some (commitResultMeta env mid data rid req)), s')
      ∧ lookupMeta s'.pool (strTRIP ++ env.randomUUID) =
          some (.trip (builtTripMeta (strTRIP ++ env.randomUUID) mid data rid req)) := by
  simp only [checkMatchConstraintsM, run_tryCatchJs, run_bind, run_pure,
    getMetaM_run env _ _ hok, hfound]
  rw [if_neg hcap]
  by_cases hst : ((data.luggage + req.luggage == LUGGAGE_CAPACITY)
      || (data.no_of_passengers + req.no_of_passengers == MAX_PASSENGERS)) = true
  · simp only [hst, Bool.not_true, Bool.false_eq_true, if_false, run_bind, run_pure,
      zRemM_run env _ _ hok, delMetaM_run env _ _ hok, setMetaM_run env _ _ _ hok]
    refine ⟨_, rfl, ?_⟩
    simp [lookupMeta, setMeta]
  · simp only [Bool.not_eq_true] at hst
    simp only [hst, Bool.not_false, if_true, run_bind, run_pure, storeTripRouteM,
      run_tryCatchJs, zAddM_run env _ _ hok,
      zRemM_run env _ _ hok, delMetaM_run env _ _ hok, setMetaM_run env _ _ _ hok]
    refine ⟨_, rfl, ?_⟩
    simp [lookupMeta, setMeta]
/-- C3: a pairing commit in `checkMatchConstraints` whose summed
passenger count is within `MAX_PASSENGERS` and whose summed luggage is
within `LUGGAGE_CAPACITY` succeeds, and the resulting trip metadata's
status is `ACTIVE` iff the summed passenger count equals
`MAX_PASSENGERS` or the summed luggage equals `LUGGAGE_CAPACITY`, and
`WAITING` otherwise. -/
theorem claim_C3_status_active_iff_cap_met (env : Env) (mid : Str) (req : PassengerMetaData)
    (rid reqSig mSig : Str) (s : MState) (data : StoredMeta) (hok : allOk env)
    (hfound : lookupMeta s.pool mid = some data)
    (hpax : data.no_of_passengers + req.no_of_passengers ≤ MAX_PASSENGERS)
    (hlug : data.luggage + req.luggage ≤ LUGGAGE_CAPACITY) :
    ∃ t s', checkMatchConstraintsM env mid req rid reqSig mSig s = (.ok (some t), s')
      ∧ (t.status = .ACTIVE ↔
          (data.no_of_passengers + req.no_of_passengers = MAX_PASSENGERS
            ∨ data.luggage + req.luggage = LUGGAGE_CAPACITY))
      ∧ (t.status = .WAITING ↔
          ¬(data.no_of_passengers + req.no_of_passengers = MAX_PASSENGERS
            ∨ data.luggage + req.luggage = LUGGAGE_CAPACITY)) := by
  have hcap : ¬(data.luggage + req.luggage > LUGGAGE_CAPACITY
      ∨ data.no_of_passengers + req.no_of_passengers > MAX_PASSENGERS) := by
    push_neg
    exact ⟨hlug, hpax⟩
  obtain ⟨s', hrun, -⟩ := checkMatch_success env mid req rid reqSig mSig s data hok hfound hcap
  refine ⟨_, s', hrun, ?_, ?_⟩ <;>
    · simp only [commitResultMeta, builtTripMeta]
      split_ifs with h <;> simp only [Bool.or_eq_true, beq_iff_eq] at h <;>
        simp only [iff_true, iff_false, reduceCtorEq, false_iff, true_iff] <;> tauto

/-- C3 witness: concrete commit of `u9` (1 pax, 1 luggage) with peer
`u1` (1 pax, 1 luggage): neither cap is hit exactly, so the trip is
`WAITING`. -/
theorem claim_C3_witness :
    ∃ t s', checkMatchConstraintsM env0 uid1 reqMeta0 uidR myM cand1 s0 = (.ok (some t), s')
      ∧ (t.status = .ACTIVE ↔
          ((StoredMeta.passenger meta1).no_of_passengers + reqMeta0.no_of_passengers = MAX_PASSENGERS
            ∨ (StoredMeta.passenger meta1).luggage + reqMeta0.luggage = LUGGAGE_CAPACITY))
      ∧ (t.status = .WAITING ↔
          ¬((StoredMeta.passenger meta1).no_of_passengers + reqMeta0.no_of_passengers = MAX_PASSENGERS
            ∨ (StoredMeta.passenger meta1).luggage + reqMeta0.luggage = LUGGAGE_CAPACITY)) :=
  claim_C3_status_active_iff_cap_met env0 uid1 reqMeta0 uidR myM cand1 s0
    (.passenger meta1) (fun _ => rfl) (by decide) (by decide) (by decide)

/-- C4: every successful pairing commit stores and returns trip
metadata whose `issued_price` is `0.3` (three tenths) times the matched
peer entry's previous `issued_price`. -/
theorem claim_C4_price_anchored_on_peer (env : Env) (mid : Str) (req : PassengerMetaData)
    (rid reqSig mSig : Str) (s : MState) (data : StoredMeta) (hok : allOk env)
    (hfound : lookupMeta s.pool mid = some data)
    (hpax : data.no_of_passengers + req.no_of_passengers ≤ MAX_PASSENGERS)
    (hlug : data.luggage + req.luggage ≤ LUGGAGE_CAPACITY) :
    ∃ t s', checkMatchConstraintsM env mid req rid reqSig mSig s = (.ok (some t), s')
      ∧ t.issued_price = data.issued_price * (3 / 10)
      ∧ ∃ tS, lookupMeta s'.pool (strTRIP ++ env.randomUUID) = some (.trip tS)
          ∧ tS.issued_price = data.issued_price * (3 / 10) := by
  have hcap : ¬(data.luggage + req.luggage > LUGGAGE_CAPACITY
      ∨ data.no_of_passengers + req.no_of_passengers > MAX_PASSENGERS) := by
    push_neg
    exact ⟨hlug, hpax⟩
  obtain ⟨s', hrun, hstored⟩ :=
    checkMatch_success env mid req rid reqSig mSig s data hok hfound hcap
  exact ⟨_, s', hrun, rfl, _, hstored, rfl⟩

/-- C4 witness: concrete commit where the peer's previous price is 100,
so the trip price is 30. -/
theorem claim_C4_witness :
    ∃ t s', checkMatchConstraintsM env0 uid1 reqMeta0 uidR myM cand1 s0 = (.ok (some t), s')
      ∧ t.issued_price = (StoredMeta.passenger meta1).issued_price * (3 / 10)
      ∧ ∃ tS, lookupMeta s'.pool (strTRIP ++ env0.randomUUID) = some (.trip tS)
          ∧ tS.issued_price = (StoredMeta.passenger meta1).issued_price * (3 / 10) :=
  claim_C4_price_anchored_on_peer env0 uid1 reqMeta0 uidR myM cand1 s0
    (.passenger meta1) (fun _ => rfl) (by decide) (by decide) (by decide)

/-- C1 (amended): in the Step-2 best-detour scan, the head candidate of
the scan wins as soon as its split index is nonzero, its detour is
below the 3000 m threshold, and its capacity check passes — the scan
commits and returns immediately, so it returns the first acceptable
candidate in scan order, not the minimum-detour one. -/
theorem claim_C1_first_acceptable_wins (env : Env) (myRoute myMember uid : Str)
    (req : PassengerMetaData) (c : Str) (rest : List Str) (s : MState) (data : StoredMeta)
    (hok : allOk env)
    (hsplit : candidateSplitIndex myRoute (candRouteOf c) ≠ 0)
    (hdet : candDetour env myRoute (candRouteOf c) < 3000)
    (hfound : lookupMeta s.pool (candIdOf c) = some data)
    (hpax : data.no_of_passengers + req.no_of_passengers ≤ MAX_PASSENGERS)
    (hlug : data.luggage + req.luggage ≤ LUGGAGE_CAPACITY) :
    ∃ s', step2Scan env myRoute myMember uid req (c :: rest) { match_type := .NONE } none s =
      (.ok { match_type := .BEST_DETOUR, user_id := some (candIdOf c),
             detour_distance_meters := some (candDetour env myRoute (candRouteOf c)),
             split_point_h3 := some (splitPointOf myRoute (candRouteOf c)),
             trip_id := some (strTRIP ++ env.randomUUID),
             trip := (commitResultMeta env (candIdOf c) data uid req).trip }, s') := by
  have hcap : ¬(data.luggage + req.luggage > LUGGAGE_CAPACITY
      ∨ data.no_of_passengers + req.no_of_passengers > MAX_PASSENGERS) := by
    push_neg
    exact ⟨hlug, hpax⟩
  obtain ⟨s', hrun, -⟩ :=
    checkMatch_success env (candIdOf c) req uid myMember c s data hok hfound hcap
  refine ⟨s', ?_⟩
  simp only [step2Scan, run_bind, run_pure, if_neg hsplit, ltMin, Bool.and_true,
    decide_eq_true_eq, if_pos hdet, hrun]
  rfl

/-- C1 counterexample: both scanned neighbours have computed detours
below 3000 m (`u1`: 2000 m, `u2`: 1000 m) and both pass the capacity
check, yet the scan returns `u1` — the first scanned — with detour
2000 m, not the minimum-detour candidate `u2` with 1000 m. -/
theorem claim_C1_counterexample :
    (step2Scan env0 myR myM uidR reqMeta0 [cand1, cand2] { match_type := .NONE } none s0).1 =
      .ok { match_type := .BEST_DETOUR, user_id := some uid1,
            detour_distance_meters := some 2000, split_point_h3 := some cellA,
            trip_id := some (strTRIP ++ ['x']), trip := none }
    ∧ candDetour env0 myR (candRouteOf cand1) = 2000
    ∧ candDetour env0 myR (candRouteOf cand2) = 1000
    ∧ candidateSplitIndex myR (candRouteOf cand1) ≠ 0
    ∧ candidateSplitIndex myR (candRouteOf cand2) ≠ 0
    ∧ lookupMeta s0.pool (candIdOf cand1) = some (.passenger meta1)
    ∧ lookupMeta s0.pool (candIdOf cand2) = some (.passenger meta2)
    ∧ meta1.no_of_passengers + reqMeta0.no_of_passengers ≤ MAX_PASSENGERS
    ∧ meta1.luggage + reqMeta0.luggage ≤ LUGGAGE_CAPACITY
    ∧ meta2.no_of_passengers + reqMeta0.no_of_passengers ≤ MAX_PASSENGERS
    ∧ meta2.luggage + reqMeta0.luggage ≤ LUGGAGE_CAPACITY
    ∧ candIdOf cand1 ≠ candIdOf cand2
    ∧ (1000 : Nat) < 2000 := by
  decide

/-- C1 witness for the amended theorem: the concrete fixture scan
returns the committed head candidate `u1`. -/
theorem claim_C1_witness :
    ∃ s', step2Scan env0 myR myM uidR reqMeta0 (cand1 :: [cand2]) { match_type := .NONE } none s0 =
      (.ok { match_type := .BEST_DETOUR, user_id := some (candIdOf cand1),
             detour_distance_meters := some (candDetour env0 myR (candRouteOf cand1)),
             split_point_h3 := some (splitPointOf myR (candRouteOf cand1)),
             trip_id := some (strTRIP ++ env0.randomUUID),
             trip := (commitResultMeta env0 (candIdOf cand1) (.passenger meta1) uidR reqMeta0).trip }, s') :=
  claim_C1_first_acceptable_wins env0 myR myM uidR reqMeta0 cand1 [cand2] s0
    (.passenger meta1) (fun _ => rfl) (by decide) (by decide) (by decide) (by decide) (by decide)

/-- C2: evaluation at the failing input.  The requesting user's route
(two cells, 30 characters) is at least as long as the matched user's
(one cell, 15 characters), yet the membership record built by
`storeTripRoute` — and written into the pool — carries the matched
user's shorter route, not the longer route the claim (and the dead
`if` branch in the source) prescribes. -/
theorem claim_C2_longer_route_not_stored :
    tripRouteValue ((cellA ++ cellB) ++ colons ++ uidR) (cellA ++ colons ++ uid1)
        (strTRIP ++ ['x'])
      = cellA ++ colons ++ (strTRIP ++ ['x'])
    ∧ (cellA ++ cellB).length ≥ cellA.length
    ∧ tripRouteValue ((cellA ++ cellB) ++ colons ++ uidR) (cellA ++ colons ++ uid1)
        (strTRIP ++ ['x'])
      ≠ (cellA ++ cellB) ++ colons ++ (strTRIP ++ ['x'])
    ∧ (storeTripRouteM env0 ((cellA ++ cellB) ++ colons ++ uidR) (cellA ++ colons ++ uid1)
        (strTRIP ++ ['x']) sE).2.pool.lexset
      = [cellA ++ colons ++ (strTRIP ++ ['x'])] := by
  decide

/-- C5: evaluation at the failing input.  For a total driving distance
of half a kilometre the price is `ceil(0.5 × 10) = 5`, which is below
the documented minimum of `COST_PER_KM = 10`, refuting the "never less
than RATE_PER_KM" part of the claim (the minimum is only applied to
non-positive distances). -/
theorem claim_C5_minimum_price_violated :
    calculateIssuedPrice (1 / 2) = 5
    ∧ calculateIssuedPrice (1 / 2) < COST_PER_KM
    ∧ (0 : ℚ) < 1 / 2 := by
  have h : calculateIssuedPrice (1 / 2) = 5 := by
    unfold calculateIssuedPrice COST_PER_KM
    norm_num
  refine ⟨h, ?_, by norm_num⟩
  rw [h]
  decide

/-- C6: when the routing call of the indexer fails (thrown fetch/HTTP
error, or "No route found"), the registration handler answers with the
failure message and the run's state — pool included — is exactly the
initial one: no metadata key and no membership record is written. -/
theorem claim_C6_indexer_failure_no_mutation (env : Env) (uid : Str)
    (payload : RegisterRidePayload) (s : MState) (e : String)
    (hpax : payload.no_of_passengers ≠ 0) (hlat : payload.latitude ≠ 0)
    (hlng : payload.longitude ≠ 0)
    (herr : fetchRouteFromGoogle env airportLocation (payload.latitude, payload.longitude)
      = .error e) :
    handleRegisterRide env uid payload s = (.errorMsg registerFailedMsg, s) := by
  simp [handleRegisterRide, generateH3IndexesForRoute, herr, hpax, hlat, hlng]

/-- C6 witness: with the fetch erroring, registration of a valid
payload against the empty pool fails and leaves the pool empty. -/
theorem claim_C6_witness :
    handleRegisterRide env0 uidR payloadSmall sE = (.errorMsg registerFailedMsg, sE) :=
  claim_C6_indexer_failure_no_mutation env0 uidR payloadSmall sE "no"
    (by decide) (by decide) (by decide) (by decide)

lemma zAddPool_meta (p : PoolState) (v : Str) : (zAddPool p v).meta = p.meta := by
  unfold zAddPool
  split <;> rfl

lemma mem_insertLex_self (v : Str) (l : List Str) : v ∈ insertLex v l := by
  induction l with
  | nil => simp [insertLex]
  | cons x xs ih =>
    unfold insertLex
    split
    · exact List.mem_cons_self v _
    · exact List.mem_cons_of_mem x ih

lemma mem_zAddPool_self (p : PoolState) (v : Str) : v ∈ (zAddPool p v).lexset := by
  unfold zAddPool
  split
  · assumption
  · exact mem_insertLex_self v p.lexset

lemma registerWrites_run (env : Env) (uid : Str) (meta : PassengerMetaData)
    (path : List Str) (s : MState) (hok : allOk env) :
    registerWrites env uid meta path s =
      ⟨zAddPool (setMeta s.pool uid (.passenger meta)) (getRouteString path ++ colons ++ uid),
       s.ops + 2⟩ := by
  simp [registerWrites, storePassengerMetaDataM, storeRouteH3IndexM, run_tryCatchJs,
    run_bind, run_pure, setMetaM_run env _ _ _ hok, zAddM_run env _ _ hok]

lemma lookupMeta_setMeta_self (p : PoolState) (k : Str) (v : StoredMeta) :
    lookupMeta (setMeta p k v) k = some v := by
  simp [lookupMeta, setMeta]

/-- C7 counterexample: a request asking for 5 passengers (cap 3) is not
rejected: the handler registers it into the pool (metadata and
membership record written) and answers `REGISTERED`. -/
theorem claim_C7_counterexample :
    (handleRegisterRide envIdx uidR payloadBig sE).1 = .registered
    ∧ lookupMeta (handleRegisterRide envIdx uidR payloadBig sE).2.pool uidR
        = some (.passenger { no_of_passengers := 5, destination_h3 := cellA, luggage := 1,
                             status := .WAITING, issued_price := 500 })
    ∧ (cellA ++ colons ++ uidR) ∈ (handleRegisterRide envIdx uidR payloadBig sE).2.pool.lexset
    ∧ payloadBig.no_of_passengers > MAX_PASSENGERS := by
  decide

/-- C7 (amended): there is no capacity pre-check.  A request that
passes the falsy-field validation is registered into the pool —
metadata key and membership record both written — before any matching,
even when its own capacity needs already exceed a cap; capacity is
enforced only at pairing time inside `checkMatchConstraints`. -/
theorem claim_C7_no_capacity_precheck (env : Env) (uid : Str) (p : RegisterRidePayload)
    (s : MState) (ires : IndexerResult)
    (hpax0 : p.no_of_passengers ≠ 0) (hlat : p.latitude ≠ 0) (hlng : p.longitude ≠ 0)
    (hexceed : p.no_of_passengers > MAX_PASSENGERS ∨ p.luggage > LUGGAGE_CAPACITY)
    (hok : allOk env)
    (hidx : generateH3IndexesForRoute env (p.latitude, p.longitude) = .ok ires) :
    lookupMeta (registerWrites env uid (mkRegMeta p ires) ires.pathH3Indexes s).pool uid
        = some (.passenger (mkRegMeta p ires))
    ∧ (getRouteString ires.pathH3Indexes ++ colons ++ uid)
        ∈ (registerWrites env uid (mkRegMeta p ires) ires.pathH3Indexes s).pool.lexset
    ∧ handleRegisterRide env uid p s =
        (let ms := matchUserWithAvaialbleTrip env uid ires.pathH3Indexes (mkRegMeta p ires)
            (registerWrites env uid (mkRegMeta p ires) ires.pathH3Indexes s)
         if ms.1.match_type ≠ .NONE then (.rideMatched ms.1, ms.2) else (.registered, ms.2)) := by
  refine ⟨?_, ?_, ?_⟩
  · rw [registerWrites_run env uid _ _ s hok]
    simp [lookupMeta, zAddPool_meta, setMeta]
  · rw [registerWrites_run env uid _ _ s hok]
    exact mem_zAddPool_self _ _
  · simp only [handleRegisterRide, hidx]
    rw [if_neg (by simp [hpax0, hlat, hlng])]
    rfl

/-- C7 witness for the amended theorem: the oversized concrete request
is written into the empty pool before matching. -/
theorem claim_C7_witness :
    lookupMeta (registerWrites envIdx uidR (mkRegMeta payloadBig ⟨cellA, [cellA], 1, 5⟩)
        [cellA] sE).pool uidR
      = some (.passenger (mkRegMeta payloadBig ⟨cellA, [cellA], 1, 5⟩))
    ∧ (getRouteString [cellA] ++ colons ++ uidR)
      ∈ (registerWrites envIdx uidR (mkRegMeta payloadBig ⟨cellA, [cellA], 1, 5⟩)
          [cellA] sE).pool.lexset
    ∧ handleRegisterRide envIdx uidR payloadBig sE =
        (let ms := matchUserWithAvaialbleTrip envIdx uidR [cellA]
            (mkRegMeta payloadBig ⟨cellA, [cellA], 1, 5⟩)
            (registerWrites envIdx uidR (mkRegMeta payloadBig ⟨cellA, [cellA], 1, 5⟩)
              [cellA] sE)
         if ms.1.match_type ≠ .NONE then (.rideMatched ms.1, ms.2) else (.registered, ms.2)) :=
  claim_C7_no_capacity_precheck envIdx uidR payloadBig sE ⟨cellA, [cellA], 1, 5⟩
    (by decide) (by decide) (by decide) (Or.inl (by decide)) (fun _ => rfl)
    (by
      simp only [generateH3IndexesForRoute, fetchRouteFromGoogle, envIdx, env0, payloadBig,
        dedupFirst, fillRouteGaps, addUnique]
      norm_num)

lemma removeUserFromPoolM_run (env : Env) (u : Str) (s : MState) (hok : allOk env) :
    ∃ n, removeUserFromPoolM env u s = (.ok (), ⟨removeUserPure u s.pool, n⟩) := by
  simp only [removeUserFromPoolM, run_tryCatchJs, run_bind, run_pure,
    zRangeAll_run env _ hok]
  by_cases hpos :
      (List.filter (fun member => decide ((splitColons member)[1]? = some u))
        s.pool.lexset).length > 0
  · rw [if_pos hpos]
    simp only [run_bind, zRemM_run env _ _ hok, delMetaM_run env _ _ hok]
    refine ⟨s.ops + 1 + 1 + 1, ?_⟩
    have hpool : delMeta (zRemPool s.pool
        (List.filter (fun member => decide ((splitColons member)[1]? = some u))
          s.pool.lexset)) [u] = removeUserPure u s.pool := by
      simp only [delMeta, zRemPool, removeUserPure, PoolState.mk.injEq]
      constructor
      · apply List.filter_congr
        intro a ha
        simp [List.mem_filter, ha]
      · trivial
    rw [hpool]
  · rw [if_neg hpos]
    simp only [run_bind, run_pure, delMetaM_run env _ _ hok]
    refine ⟨s.ops + 1 + 1, ?_⟩
    have hall : ∀ a ∈ s.pool.lexset, ¬ (splitColons a)[1]? = some u := by
      intro a ha hsuf
      apply hpos
      have : a ∈ List.filter (fun member => decide ((splitColons member)[1]? = some u))
          s.pool.lexset := by
        simp [List.mem_filter, ha, hsuf]
      cases hmem : List.filter (fun member => decide ((splitColons member)[1]? = some u))
          s.pool.lexset with
      | nil => rw [hmem] at this; cases this
      | cons b bs => simp [hmem]
    have hpool : delMeta s.pool [u] = removeUserPure u s.pool := by
      simp only [delMeta, removeUserPure, PoolState.mk.injEq]
      constructor
      · rw [List.filter_eq_self.mpr]
        intro a ha
        simp [hall a ha]
      · trivial
    rw [hpool]

lemma removeUserPure_idem (u : Str) (p : PoolState) :
    removeUserPure u (removeUserPure u p) = removeUserPure u p := by
  simp [removeUserPure, List.filter_filter]

/-- C8: `removeUserFromPool` is idempotent on the pool (lex set and
metadata keyspace): a second call leaves the pool exactly as the first
left it; and after one call no membership record with `::`-suffix `u`
and no metadata key `u` remains. -/
theorem claim_C8_remove_user_idempotent (env : Env) (u : Str) (s : MState) (hok : allOk env) :
    (removeUserFromPoolM env u ((removeUserFromPoolM env u s).2)).2.pool
      = (removeUserFromPoolM env u s).2.pool
    ∧ lookupMeta (removeUserFromPoolM env u s).2.pool u = none
    ∧ ∀ member ∈ (removeUserFromPoolM env u s).2.pool.lexset,
        ¬ (splitColons member)[1]? = some u := by
  obtain ⟨n1, h1⟩ := removeUserFromPoolM_run env u s hok
  obtain ⟨n2, h2⟩ := removeUserFromPoolM_run env u ⟨removeUserPure u s.pool, n1⟩ hok
  refine ⟨?_, ?_, ?_⟩
  · rw [h1]
    simp only
    rw [h2]
    simp [removeUserPure_idem]
  · rw [h1]
    simp only [removeUserPure, lookupMeta]
    rw [List.find?_eq_none.mpr]
    · rfl
    · intro kv hkv
      have := List.of_mem_filter hkv
      simp at this ⊢
      exact this
  · rw [h1]
    intro member hmem
    have := List.of_mem_filter hmem
    simpa using this

/-- C8 witness: removing `u1` from the concrete pool twice equals
removing it once; its metadata key is gone, and the surviving member
`cand2` does not carry the suffix `::u1`. -/
theorem claim_C8_witness :
    (removeUserFromPoolM env0 uid1 ((removeUserFromPoolM env0 uid1 s0).2)).2.pool
      = (removeUserFromPoolM env0 uid1 s0).2.pool
    ∧ lookupMeta (removeUserFromPoolM env0 uid1 s0).2.pool uid1 = none
    ∧ ¬ (splitColons cand2)[1]? = some uid1 := by
  have h := claim_C8_remove_user_idempotent env0 uid1 s0 (fun _ => rfl)
  exact ⟨h.1, h.2.1, h.2.2 cand2 (by decide)⟩

lemma step2Scan_best_from_none (env : Env) (myRoute myMember uid : Str)
    (req : PassengerMetaData) :
    ∀ (cands : List Str) (minD : Option Nat) (s : MState) (r : RouteMatch) (s' : MState),
      step2Scan env myRoute myMember uid req cands { match_type := .NONE } minD s
        = (.ok r, s') →
      r.match_type = .BEST_DETOUR →
      ∃ c ∈ cands, r.user_id = some (candIdOf c)
        ∧ r.detour_distance_meters = some (candDetour env myRoute (candRouteOf c))
        ∧ candDetour env myRoute (candRouteOf c) < 3000 := by
  intro cands
  induction cands with
  | nil =>
    intro minD s r s' hrun hmt
    simp only [step2Scan, run_pure, Prod.mk.injEq, Except.ok.injEq] at hrun
    rw [← hrun.1] at hmt
    cases hmt
  | cons c rest ih =>
    intro minD s r s' hrun hmt
    simp only [step2Scan] at hrun
    by_cases h0 : candidateSplitIndex myRoute (candRouteOf c) = 0
    · rw [if_pos h0] at hrun
      obtain ⟨c', hc', hx⟩ := ih minD s r s' hrun hmt
      exact ⟨c', List.mem_cons_of_mem c hc', hx⟩
    · rw [if_neg h0] at hrun
      by_cases hg : (decide (candDetour env myRoute (candRouteOf c) < 3000)
          && ltMin (candDetour env myRoute (candRouteOf c)) minD) = true
      · rw [if_pos hg] at hrun
        rw [run_bind] at hrun
        rcases hc : checkMatchConstraintsM env (candIdOf c) req uid myMember c s
          with ⟨res, s1⟩
        rw [hc] at hrun
        cases res with
        | error e => simp at hrun
        | ok opt =>
          cases opt with
          | some t =>
            simp only [run_pure, Prod.mk.injEq, Except.ok.injEq] at hrun
            refine ⟨c, List.mem_cons_self c rest, ?_⟩
            rw [← hrun.1]
            refine ⟨rfl, rfl, ?_⟩
            have hpair := (Bool.and_eq_true _ _).mp hg
            exact of_decide_eq_true hpair.1
          | none =>
            obtain ⟨c', hc', hx⟩ := ih _ _ _ _ hrun hmt
            exact ⟨c', List.mem_cons_of_mem c hc', hx⟩
      · rw [if_neg hg] at hrun
        obtain ⟨c', hc', hx⟩ := ih _ _ _ _ hrun hmt
        exact ⟨c', List.mem_cons_of_mem c hc', hx⟩

/-- C9: a candidate whose detour computation failed is never selected.
If the routing call for a candidate throws, or answers without any
route, `fetchRouteDistance` returns the sentinel 9999999 m; and any
`BEST_DETOUR` result of the Step-2 scan reports the computed detour of
one of the scanned candidates, strictly below the 3000 m threshold —
so it cannot be a candidate whose computation returned the sentinel. -/
theorem claim_C9_failed_detour_never_selected :
    (∀ (env : Env) (o d : ℚ × ℚ) (e : String),
      env.routesApi o d = .error e → fetchRouteDistance env o d = 9999999)
    ∧ (∀ (env : Env) (o d : ℚ × ℚ) (resp : DistanceResponse),
      env.routesApi o d = .ok resp → resp.routes = [] →
        fetchRouteDistance env o d = 9999999)
    ∧ (∀ (env : Env) (myRoute myMember uid : Str) (req : PassengerMetaData)
        (cands : List Str) (s : MState) (r : RouteMatch) (s' : MState),
      step2Scan env myRoute myMember uid req cands { match_type := .NONE } none s
        = (.ok r, s') →
      r.match_type = .BEST_DETOUR →
      ∃ c ∈ cands, r.user_id = some (candIdOf c)
        ∧ r.detour_distance_meters = some (candDetour env myRoute (candRouteOf c))
        ∧ candDetour env myRoute (candRouteOf c) < 3000) := by
  refine ⟨?_, ?_, ?_⟩
  · intro env o d e h
    simp [fetchRouteDistance, h]
  · intro env o d resp h hempty
    simp [fetchRouteDistance, h, hempty]
  · intro env myRoute myMember uid req cands s r s' hrun hmt
    exact step2Scan_best_from_none env myRoute myMember uid req cands none s r s' hrun hmt

/-- C9 witness: a thrown routing call and an empty-routes answer both
yield the sentinel, and the concrete fixture scan's `BEST_DETOUR`
result is one of its scanned candidates with a sub-threshold detour. -/
theorem claim_C9_witness :
    fetchRouteDistance env0 (0, 0) (5, 5) = 9999999
    ∧ fetchRouteDistance envNoRoute (0, 0) (1, 0) = 9999999
    ∧ ∃ c ∈ [cand1, cand2],
        ({ match_type := .BEST_DETOUR, user_id := some uid1,
           detour_distance_meters := some 2000, split_point_h3 := some cellA,
           trip_id := some (strTRIP ++ ['x']), trip := none } : RouteMatch).user_id
          = some (candIdOf c)
        ∧ ({ match_type := .BEST_DETOUR, user_id := some uid1,
             detour_distance_meters := some 2000, split_point_h3 := some cellA,
             trip_id := some (strTRIP ++ ['x']), trip := none } : RouteMatch).detour_distance_meters
          = some (candDetour env0 myR (candRouteOf c))
        ∧ candDetour env0 myR (candRouteOf c) < 3000 := by
  have h := claim_C9_failed_detour_never_selected
  refine ⟨h.1 env0 (0, 0) (5, 5) "err" rfl, h.2.1 envNoRoute (0, 0) (1, 0) ⟨[]⟩ rfl rfl, ?_⟩
  exact h.2.2 env0 myR myM uidR reqMeta0 [cand1, cand2] s0 _
    (step2Scan env0 myR myM uidR reqMeta0 [cand1, cand2] { match_type := .NONE } none s0).2
    (Prod.ext (by decide) rfl) (by decide)

/-- C10: `matchUserWithAvaialbleTrip` never propagates an exception:
whenever its body — pool scans, metadata reads, routing calls, the
commit — throws, the surrounding catch absorbs the error and the
function returns `{ match_type: 'NONE' }` (with the state the run had
reached). -/
theorem claim_C10_match_catches_all (env : Env) (uid : Str) (routeIndexes : List Str)
    (meta : PassengerMetaData) (s : MState) (e : String) (s' : MState)
    (h : matchBody env uid routeIndexes meta s = (.error e, s')) :
    matchUserWithAvaialbleTrip env uid routeIndexes meta s = ({ match_type := .NONE }, s') := by
  unfold matchUserWithAvaialbleTrip
  rw [h]

/-- C10 witness: with the Redis connection down, the very first pool
scan throws, and the matcher returns `NONE` instead of the error. -/
theorem claim_C10_witness :
    matchUserWithAvaialbleTrip envFail uidR [cellA] reqMeta0 sE
      = ({ match_type := .NONE }, ⟨sE.pool, 1⟩) :=
  claim_C10_match_catches_all envFail uidR [cellA] reqMeta0 sE "redis op failed"
    ⟨sE.pool, 1⟩ (by decide)
